import Mathlib

/-!
Verification of the swarm-conductor core: the SPARC phase state machine
(src/core/state.ts), the confidence evaluators (src/types/confidence.ts and
the MCP handlers), and the SQLite-backed repository together with the MCP
checkpoint/restore/sprint/cancel handlers (src/state/repository.ts,
src/mcp/handlers.ts, src/state/schema.sql).

Numbers that are JavaScript floats in the source are embedded as exact
rationals; timestamps (JS Date values) are embedded as naturals passed
explicitly; JSON round-tripping of the typed blobs is the identity on the
embedded types.
-/

namespace SwarmConductor

/-- The Result type of src/types/result.ts: ok value or err error. -/
inductive Result (α ε : Type) where
  | ok (value : α)
  | err (error : ε)
deriving DecidableEq

/-! ## Phase state machine: src/types/cli.ts and src/core/state.ts -/

inductive SPARCPhase where
  | planning
  | executing
  | testing
  | refactoring
  | completing
deriving DecidableEq

inductive TaskStatus where
  | pending
  | inProgress
  | completed
  | failed
deriving DecidableEq

structure Task where
  id : String
  description : String
  status : TaskStatus
  assignedTo : Option String
  dependencies : List String
deriving DecidableEq

inductive AgentType where
  | architect
  | developer
  | tester
  | reviewer
  | coordinator
deriving DecidableEq

inductive AgentStatus where
  | idle
  | busy
  | error
deriving DecidableEq

structure Agent where
  id : String
  name : String
  type : AgentType
  status : AgentStatus
  currentTask : Option String
deriving DecidableEq

/-- SwarmState of src/types/cli.ts. `previousStates` stores full earlier
aggregates, so the type is genuinely recursive. -/
inductive SwarmState where
  | mk (id : String) (phase : SPARCPhase) (confidence : Rat) (context : String)
      (previousStates : List SwarmState) (tasks : List Task) (agents : List Agent)

def SwarmState.id : SwarmState → String
  | .mk i _ _ _ _ _ _ => i

def SwarmState.phase : SwarmState → SPARCPhase
  | .mk _ p _ _ _ _ _ => p

def SwarmState.confidence : SwarmState → Rat
  | .mk _ _ c _ _ _ _ => c

def SwarmState.context : SwarmState → String
  | .mk _ _ _ ctx _ _ _ => ctx

def SwarmState.previousStates : SwarmState → List SwarmState
  | .mk _ _ _ _ ps _ _ => ps

def SwarmState.tasks : SwarmState → List Task
  | .mk _ _ _ _ _ ts _ => ts

def SwarmState.agents : SwarmState → List Agent
  | .mk _ _ _ _ _ _ ags => ags

/-- Partial Task updates (the Partial of TypeScript): a present field
overwrites, an absent one keeps the old value. -/
structure TaskUpdates where
  description : Option String := none
  status : Option TaskStatus := none
  assignedTo : Option String := none
  dependencies : Option (List String) := none
deriving DecidableEq

structure AgentUpdates where
  name : Option String := none
  type : Option AgentType := none
  status : Option AgentStatus := none
  currentTask : Option String := none
deriving DecidableEq

def applyTaskUpdates (t : Task) (u : TaskUpdates) : Task :=
  { t with
    description := u.description.getD t.description
    status := u.status.getD t.status
    assignedTo := match u.assignedTo with
      | some v => some v
      | none => t.assignedTo
    dependencies := u.dependencies.getD t.dependencies }

def applyAgentUpdates (a : Agent) (u : AgentUpdates) : Agent :=
  { a with
    name := u.name.getD a.name
    type := u.type.getD a.type
    status := u.status.getD a.status
    currentTask := match u.currentTask with
      | some v => some v
      | none => a.currentTask }

inductive StateAction where
  | transitionPhase (phase : SPARCPhase)
  | updateConfidence (confidence : Rat)
  | addTask (task : Task)
  | updateTask (taskId : String) (updates : TaskUpdates)
  | assignTask (taskId : String) (agentId : String)
  | updateAgent (agentId : String) (updates : AgentUpdates)

/-- The validTransitions table of src/core/state.ts, lines 102-108. -/
def validTransitions : SPARCPhase → List SPARCPhase
  | .planning => [.executing]
  | .executing => [.testing, .planning]
  | .testing => [.refactoring, .executing]
  | .refactoring => [.testing, .completing]
  | .completing => []

/-- The object spread of a successful transition: same aggregate with the new
phase and the whole pre-transition aggregate appended to the history. -/
def appendHistory (s : SwarmState) (newPhase : SPARCPhase) : SwarmState :=
  match s with
  | .mk i _ c ctx ps ts ags => .mk i newPhase c ctx (ps ++ [s]) ts ags

/-- transitionPhase of src/core/state.ts, lines 97-119. -/
def transitionPhase (state : SwarmState) (newPhase : SPARCPhase) :
    Result SwarmState String :=
  if ¬ (validTransitions state.phase).contains newPhase then
    .err "Invalid phase transition"
  else
    .ok (appendHistory state newPhase)

/-- updateConfidence of src/core/state.ts, lines 122-134. -/
def updateConfidence (state : SwarmState) (confidence : Rat) :
    Result SwarmState String :=
  if confidence < 0 ∨ confidence > 1 then
    .err "Confidence must be between 0 and 1"
  else
    .ok (match state with
      | .mk i p _ ctx ps ts ags => .mk i p confidence ctx ps ts ags)

/-- addTask of src/core/state.ts, lines 137-145. -/
def addTask (state : SwarmState) (task : Task) : Result SwarmState String :=
  .ok (match state with
    | .mk i p c ctx ps ts ags => .mk i p c ctx ps (ts ++ [task]) ags)

/-- Replace the first element satisfying `p` by its image under `f`
(the findIndex-then-copy-and-set idiom of updateTask and updateAgent). -/
def updateFirst {α : Type} (p : α → Bool) (f : α → α) : List α → Option (List α)
  | [] => none
  | x :: xs =>
    if p x then some (f x :: xs)
    else (updateFirst p f xs).map (fun ys => x :: ys)

/-- updateTask of src/core/state.ts, lines 148-169. -/
def updateTask (state : SwarmState) (taskId : String) (updates : TaskUpdates) :
    Result SwarmState String :=
  match state with
  | .mk i p c ctx ps ts ags =>
    match updateFirst (fun t => t.id == taskId) (fun t => applyTaskUpdates t updates) ts with
    | none => .err "Task not found"
    | some ts2 => .ok (.mk i p c ctx ps ts2 ags)

/-- updateAgent of src/core/state.ts, lines 189-210. -/
def updateAgent (state : SwarmState) (agentId : String) (updates : AgentUpdates) :
    Result SwarmState String :=
  match state with
  | .mk i p c ctx ps ts ags =>
    match updateFirst (fun a => a.id == agentId) (fun a => applyAgentUpdates a updates) ags with
    | none => .err "Agent not found"
    | some ags2 => .ok (.mk i p c ctx ps ts ags2)

/-- assignTask of src/core/state.ts, lines 172-186. -/
def assignTask (state : SwarmState) (taskId : String) (agentId : String) :
    Result SwarmState String :=
  match updateTask state taskId { assignedTo := some agentId } with
  | .err e => .err e
  | .ok st1 => updateAgent st1 agentId { currentTask := some taskId, status := some .busy }

/-- reduceState of src/core/state.ts, lines 59-85. -/
def reduceState (state : SwarmState) (action : StateAction) : Result SwarmState String :=
  match action with
  | .transitionPhase p => transitionPhase state p
  | .updateConfidence c => updateConfidence state c
  | .addTask t => addTask state t
  | .updateTask tid u => updateTask state tid u
  | .assignTask tid aid => assignTask state tid aid
  | .updateAgent aid u => updateAgent state aid u

/-- The transition pairs the code accepts (the table above, flattened). -/
def allowedTransitionPairs : List (SPARCPhase × SPARCPhase) :=
  [(.planning, .executing),
   (.executing, .testing), (.executing, .planning),
   (.testing, .refactoring), (.testing, .executing),
   (.refactoring, .testing), (.refactoring, .completing),
   ]

/-- A concrete aggregate sitting in the refactoring phase. -/
def refactoringState : SwarmState :=
  .mk "swarm-1" .refactoring (1/2) "ctx" [] [] []

/-- C1 counterexample: the claimed transition table has no pair
(refactoring, completing), so the claim requires this request to be rejected
with the aggregate unchanged; the code accepts it and moves to completing. -/
theorem transitionPhase_refactoring_completing_accepted :
    transitionPhase refactoringState SPARCPhase.completing =
      Result.ok (SwarmState.mk "swarm-1" SPARCPhase.completing (1/2) "ctx"
        [refactoringState] [] []) := rfl

/-- C1 (amended): a requested transition is applied if and only if the
(from, to) pair is in the code transition table - the spec table plus
refactoring - completing. On an accepted pair the result is the same aggregate
with the new phase and the pre-transition aggregate appended to the history;
every other pair is rejected with a bare error value carrying no state. -/
theorem transitionPhase_table_exact (s : SwarmState) (p : SPARCPhase) :
    if (s.phase, p) ∈ allowedTransitionPairs then
      transitionPhase s p = Result.ok (appendHistory s p)
    else
      transitionPhase s p = Result.err "Invalid phase transition" := by
  rcases s with ⟨i, ph, c, ctx, ps, ts, ags⟩
  cases ph <;> cases p <;>
    simp [transitionPhase, validTransitions, allowedTransitionPairs, SwarmState.phase,
      appendHistory, List.contains]

/-- C10: every reducer action other than TRANSITION_PHASE that succeeds keeps
the phase and the previousStates history unchanged; a successful
TRANSITION_PHASE appends the entire pre-transition aggregate to the history. -/
theorem reduceState_frame (s : SwarmState) (a : StateAction) (s2 : SwarmState)
    (h : reduceState s a = Result.ok s2) :
    ((∀ p, a ≠ StateAction.transitionPhase p) →
        s2.phase = s.phase ∧ s2.previousStates = s.previousStates)
    ∧ (∀ p, a = StateAction.transitionPhase p →
        s2.previousStates = s.previousStates ++ [s]) := by
  have hTask : ∀ (st : SwarmState) (tid : String) (u : TaskUpdates) (st2 : SwarmState),
      updateTask st tid u = Result.ok st2 →
      st2.phase = st.phase ∧ st2.previousStates = st.previousStates := by
    intro st tid u st2 hu
    rcases st with ⟨i, p, c, ctx, ps, ts, ags⟩
    simp only [updateTask] at hu
    rcases hfind : updateFirst (fun t => t.id == tid) (fun t => applyTaskUpdates t u) ts with
      _ | ts2 <;> rw [hfind] at hu
    · exact absurd hu (by simp)
    · cases hu
      simp [SwarmState.phase, SwarmState.previousStates]
  have hAgent : ∀ (st : SwarmState) (aid : String) (u : AgentUpdates) (st2 : SwarmState),
      updateAgent st aid u = Result.ok st2 →
      st2.phase = st.phase ∧ st2.previousStates = st.previousStates := by
    intro st aid u st2 hu
    rcases st with ⟨i, p, c, ctx, ps, ts, ags⟩
    simp only [updateAgent] at hu
    rcases hfind : updateFirst (fun a => a.id == aid) (fun a => applyAgentUpdates a u) ags with
      _ | ags2 <;> rw [hfind] at hu
    · exact absurd hu (by simp)
    · cases hu
      simp [SwarmState.phase, SwarmState.previousStates]
  cases a with
  | transitionPhase p =>
    refine ⟨fun hne => absurd rfl (hne p), fun q hq => ?_⟩
    rcases s with ⟨i, ph, c, ctx, ps, ts, ags⟩
    simp only [reduceState, transitionPhase] at h
    split at h
    · exact Result.noConfusion h
    · cases h
      simp [appendHistory, SwarmState.previousStates]
  | updateConfidence c =>
    refine ⟨fun _ => ?_, fun q hq => StateAction.noConfusion hq⟩
    rcases s with ⟨i, ph, c0, ctx, ps, ts, ags⟩
    simp only [reduceState, updateConfidence] at h
    split at h
    · exact Result.noConfusion h
    · cases h
      simp [SwarmState.phase, SwarmState.previousStates]
  | addTask t =>
    refine ⟨fun _ => ?_, fun q hq => StateAction.noConfusion hq⟩
    rcases s with ⟨i, ph, c, ctx, ps, ts, ags⟩
    simp only [reduceState, addTask] at h
    cases h
    simp [SwarmState.phase, SwarmState.previousStates]
  | updateTask tid u =>
    exact ⟨fun _ => hTask s tid u s2 h, fun q hq => StateAction.noConfusion hq⟩
  | assignTask tid aid =>
    refine ⟨fun _ => ?_, fun q hq => StateAction.noConfusion hq⟩
    have h2 : (match updateTask s tid { assignedTo := some aid } with
        | Result.err e => Result.err e
        | Result.ok st1 => updateAgent st1 aid
            { currentTask := some tid, status := some .busy }) = Result.ok s2 := h
    rcases h1 : updateTask s tid { assignedTo := some aid } with st1 | e <;> rw [h1] at h2
    · have p1 := hTask s tid _ st1 h1
      have p2 := hAgent st1 aid _ s2 h2
      exact ⟨p2.1.trans p1.1, p2.2.trans p1.2⟩
    · exact Result.noConfusion h2
  | updateAgent aid u =>
    exact ⟨fun _ => hAgent s aid u s2 h, fun q hq => StateAction.noConfusion hq⟩

/-- A small concrete aggregate for exercising the reducer. -/
def planningState : SwarmState :=
  .mk "swarm-2" .planning (1/2) "ctx" [] [] []

/-- A concrete task. -/
def sampleTask : Task :=
  { id := "t1", description := "design", status := .pending,
    assignedTo := none, dependencies := [] }

/-- Witness for C10: applying ADD_TASK to a concrete aggregate succeeds and
leaves phase and history unchanged. -/
theorem reduceState_frame_witness :
    (SwarmState.mk "swarm-2" SPARCPhase.planning (1/2) "ctx" [] [sampleTask] []).phase
        = planningState.phase ∧
    (SwarmState.mk "swarm-2" SPARCPhase.planning (1/2) "ctx" [] [sampleTask] []).previousStates
        = planningState.previousStates :=
  (reduceState_frame planningState (StateAction.addTask sampleTask)
    (SwarmState.mk "swarm-2" SPARCPhase.planning (1/2) "ctx" [] [sampleTask] []) rfl).1
    (fun p h => by cases h)

/-! ## Factor-based confidence evaluator: src/types/confidence.ts -/

namespace Confidence

/-- ConfidenceFactors of src/types/confidence.ts (7 factors, each 0-1). -/
structure ConfidenceFactors where
  successRate : Rat
  consensusLevel : Rat
  resourceUtilization : Rat
  progressRate : Rat
  errorRate : Rat
  complexity : Rat
  experience : Rat
deriving DecidableEq

/-- A weight per factor (Record of keyof ConfidenceFactors to number). -/
structure ConfidenceWeights where
  successRate : Rat
  consensusLevel : Rat
  resourceUtilization : Rat
  progressRate : Rat
  errorRate : Rat
  complexity : Rat
  experience : Rat
deriving DecidableEq

/-- DEFAULT_CONFIDENCE_WEIGHTS of src/types/confidence.ts. -/
def DEFAULT_CONFIDENCE_WEIGHTS : ConfidenceWeights :=
  { successRate := 1/4, consensusLevel := 1/5, resourceUtilization := 1/10,
    progressRate := 3/20, errorRate := 3/20, complexity := 1/10,
    experience := 1/20 }

/-- Object.values(weights) summed. -/
def totalWeight (w : ConfidenceWeights) : Rat :=
  w.successRate + w.consensusLevel + w.resourceUtilization + w.progressRate
    + w.errorRate + w.complexity + w.experience

/-- Each weight divided by the total (the re-normalization step). -/
def normalizeWeights (w : ConfidenceWeights) : ConfidenceWeights :=
  { successRate := w.successRate / totalWeight w
    consensusLevel := w.consensusLevel / totalWeight w
    resourceUtilization := w.resourceUtilization / totalWeight w
    progressRate := w.progressRate / totalWeight w
    errorRate := w.errorRate / totalWeight w
    complexity := w.complexity / totalWeight w
    experience := w.experience / totalWeight w }

/-- The weighted average over the factor entries. -/
def weightedSum (f : ConfidenceFactors) (nw : ConfidenceWeights) : Rat :=
  f.successRate * nw.successRate + f.consensusLevel * nw.consensusLevel
    + f.resourceUtilization * nw.resourceUtilization
    + f.progressRate * nw.progressRate + f.errorRate * nw.errorRate
    + f.complexity * nw.complexity + f.experience * nw.experience

/-- ConfidenceScore of src/types/confidence.ts (the attached timestamp is an
external side channel and is not modelled). -/
structure ConfidenceScore where
  value : Rat
  factors : ConfidenceFactors
  weights : ConfidenceWeights
deriving DecidableEq

/-- calculateConfidence of src/types/confidence.ts, lines 82-107: normalize
the weights to sum to 1, take the weighted average of the factors and clamp
it to the unit interval. -/
def calculateConfidence (factors : ConfidenceFactors)
    (weights : ConfidenceWeights := DEFAULT_CONFIDENCE_WEIGHTS) : ConfidenceScore :=
  let nw := normalizeWeights weights
  { value := max 0 (min 1 (weightedSum factors nw))
    factors := factors
    weights := nw }

/-- Every factor lies in the unit interval. -/
def ValidFactors (f : ConfidenceFactors) : Prop :=
  (0 ≤ f.successRate ∧ f.successRate ≤ 1)
  ∧ (0 ≤ f.consensusLevel ∧ f.consensusLevel ≤ 1)
  ∧ (0 ≤ f.resourceUtilization ∧ f.resourceUtilization ≤ 1)
  ∧ (0 ≤ f.progressRate ∧ f.progressRate ≤ 1)
  ∧ (0 ≤ f.errorRate ∧ f.errorRate ≤ 1)
  ∧ (0 ≤ f.complexity ∧ f.complexity ≤ 1)
  ∧ (0 ≤ f.experience ∧ f.experience ≤ 1)

/-- Clamping to the unit interval lands in the unit interval. -/
theorem clamp01_mem (x : Rat) : 0 ≤ max 0 (min 1 x) ∧ max 0 (min 1 x) ≤ 1 :=
  ⟨le_max_left 0 _, max_le (by norm_num) (min_le_left 1 x)⟩

/-- C7: for every valid factor vector and every weight vector the evaluator
value is clamped into the unit interval. -/
theorem calculateConfidence_value_bounded (f : ConfidenceFactors)
    (w : ConfidenceWeights) (hf : ValidFactors f) :
    0 ≤ (calculateConfidence f w).value ∧ (calculateConfidence f w).value ≤ 1 :=
  clamp01_mem (weightedSum f (normalizeWeights w))

/-- Witness for C7 at the all-ones factor vector with the default weights. -/
theorem calculateConfidence_value_bounded_witness :
    0 ≤ (calculateConfidence
          { successRate := 1, consensusLevel := 1, resourceUtilization := 1,
            progressRate := 1, errorRate := 1, complexity := 1, experience := 1 }
          DEFAULT_CONFIDENCE_WEIGHTS).value
    ∧ (calculateConfidence
          { successRate := 1, consensusLevel := 1, resourceUtilization := 1,
            progressRate := 1, errorRate := 1, complexity := 1, experience := 1 }
          DEFAULT_CONFIDENCE_WEIGHTS).value ≤ 1 :=
  calculateConfidence_value_bounded _ DEFAULT_CONFIDENCE_WEIGHTS
    (by constructor <;> norm_num)

/-- The seven factor positions. -/
inductive FactorKey where
  | successRate
  | consensusLevel
  | resourceUtilization
  | progressRate
  | errorRate
  | complexity
  | experience
deriving DecidableEq

def factorValue (f : ConfidenceFactors) : FactorKey → Rat
  | .successRate => f.successRate
  | .consensusLevel => f.consensusLevel
  | .resourceUtilization => f.resourceUtilization
  | .progressRate => f.progressRate
  | .errorRate => f.errorRate
  | .complexity => f.complexity
  | .experience => f.experience

def weightValue (w : ConfidenceWeights) : FactorKey → Rat
  | .successRate => w.successRate
  | .consensusLevel => w.consensusLevel
  | .resourceUtilization => w.resourceUtilization
  | .progressRate => w.progressRate
  | .errorRate => w.errorRate
  | .complexity => w.complexity
  | .experience => w.experience

/-- C8: when exactly one factor carries nonzero weight, the evaluator returns
that factor raw value exactly. -/
theorem calculateConfidence_single_weight (f : ConfidenceFactors)
    (w : ConfidenceWeights) (k : FactorKey) (hf : ValidFactors f)
    (hk : weightValue w k ≠ 0) (hz : ∀ j, j ≠ k → weightValue w j = 0) :
    (calculateConfidence f w).value = factorValue f k := by
  obtain ⟨h1, h2, h3, h4, h5, h6, h7⟩ := hf
  have clamp : ∀ x : Rat, 0 ≤ x → x ≤ 1 → max 0 (min 1 x) = x := by
    intro x hx0 hx1
    rw [min_eq_right hx1, max_eq_right hx0]
  cases k with
  | successRate =>
    have z2 := hz .consensusLevel (by decide)
    have z3 := hz .resourceUtilization (by decide)
    have z4 := hz .progressRate (by decide)
    have z5 := hz .errorRate (by decide)
    have z6 := hz .complexity (by decide)
    have z7 := hz .experience (by decide)
    simp only [weightValue] at hk z2 z3 z4 z5 z6 z7
    simp only [calculateConfidence, normalizeWeights, weightedSum, totalWeight,
      factorValue, weightValue, z2, z3, z4, z5, z6, z7, add_zero, zero_add,
      zero_div, mul_zero, div_self hk, mul_one]
    exact clamp _ h1.1 h1.2
  | consensusLevel =>
    have z1 := hz .successRate (by decide)
    have z3 := hz .resourceUtilization (by decide)
    have z4 := hz .progressRate (by decide)
    have z5 := hz .errorRate (by decide)
    have z6 := hz .complexity (by decide)
    have z7 := hz .experience (by decide)
    simp only [weightValue] at hk z1 z3 z4 z5 z6 z7
    simp only [calculateConfidence, normalizeWeights, weightedSum, totalWeight,
      factorValue, weightValue, z1, z3, z4, z5, z6, z7, add_zero, zero_add,
      zero_div, mul_zero, div_self hk, mul_one]
    exact clamp _ h2.1 h2.2
  | resourceUtilization =>
    have z1 := hz .successRate (by decide)
    have z2 := hz .consensusLevel (by decide)
    have z4 := hz .progressRate (by decide)
    have z5 := hz .errorRate (by decide)
    have z6 := hz .complexity (by decide)
    have z7 := hz .experience (by decide)
    simp only [weightValue] at hk z1 z2 z4 z5 z6 z7
    simp only [calculateConfidence, normalizeWeights, weightedSum, totalWeight,
      factorValue, weightValue, z1, z2, z4, z5, z6, z7, add_zero, zero_add,
      zero_div, mul_zero, div_self hk, mul_one]
    exact clamp _ h3.1 h3.2
  | progressRate =>
    have z1 := hz .successRate (by decide)
    have z2 := hz .consensusLevel (by decide)
    have z3 := hz .resourceUtilization (by decide)
    have z5 := hz .errorRate (by decide)
    have z6 := hz .complexity (by decide)
    have z7 := hz .experience (by decide)
    simp only [weightValue] at hk z1 z2 z3 z5 z6 z7
    simp only [calculateConfidence, normalizeWeights, weightedSum, totalWeight,
      factorValue, weightValue, z1, z2, z3, z5, z6, z7, add_zero, zero_add,
      zero_div, mul_zero, div_self hk, mul_one]
    exact clamp _ h4.1 h4.2
  | errorRate =>
    have z1 := hz .successRate (by decide)
    have z2 := hz .consensusLevel (by decide)
    have z3 := hz .resourceUtilization (by decide)
    have z4 := hz .progressRate (by decide)
    have z6 := hz .complexity (by decide)
    have z7 := hz .experience (by decide)
    simp only [weightValue] at hk z1 z2 z3 z4 z6 z7
    simp only [calculateConfidence, normalizeWeights, weightedSum, totalWeight,
      factorValue, weightValue, z1, z2, z3, z4, z6, z7, add_zero, zero_add,
      zero_div, mul_zero, div_self hk, mul_one]
    exact clamp _ h5.1 h5.2
  | complexity =>
    have z1 := hz .successRate (by decide)
    have z2 := hz .consensusLevel (by decide)
    have z3 := hz .resourceUtilization (by decide)
    have z4 := hz .progressRate (by decide)
    have z5 := hz .errorRate (by decide)
    have z7 := hz .experience (by decide)
    simp only [weightValue] at hk z1 z2 z3 z4 z5 z7
    simp only [calculateConfidence, normalizeWeights, weightedSum, totalWeight,
      factorValue, weightValue, z1, z2, z3, z4, z5, z7, add_zero, zero_add,
      zero_div, mul_zero, div_self hk, mul_one]
    exact clamp _ h6.1 h6.2
  | experience =>
    have z1 := hz .successRate (by decide)
    have z2 := hz .consensusLevel (by decide)
    have z3 := hz .resourceUtilization (by decide)
    have z4 := hz .progressRate (by decide)
    have z5 := hz .errorRate (by decide)
    have z6 := hz .complexity (by decide)
    simp only [weightValue] at hk z1 z2 z3 z4 z5 z6
    simp only [calculateConfidence, normalizeWeights, weightedSum, totalWeight,
      factorValue, weightValue, z1, z2, z3, z4, z5, z6, add_zero, zero_add,
      zero_div, mul_zero, div_self hk, mul_one]
    exact clamp _ h7.1 h7.2

/-- Witness for C8: all weight on successRate returns the raw successRate. -/
theorem calculateConfidence_single_weight_witness :
    (calculateConfidence
        { successRate := 7/10, consensusLevel := 1, resourceUtilization := 1,
          progressRate := 1, errorRate := 1, complexity := 1, experience := 1 }
        { successRate := 2, consensusLevel := 0, resourceUtilization := 0,
          progressRate := 0, errorRate := 0, complexity := 0, experience := 0 }).value
      = 7/10 :=
  calculateConfidence_single_weight
    { successRate := 7/10, consensusLevel := 1, resourceUtilization := 1,
      progressRate := 1, errorRate := 1, complexity := 1, experience := 1 }
    { successRate := 2, consensusLevel := 0, resourceUtilization := 0,
      progressRate := 0, errorRate := 0, complexity := 0, experience := 0 }
    FactorKey.successRate
    (by constructor <;> norm_num)
    (by norm_num [weightValue])
    (by intro j hj; cases j <;> simp [weightValue] <;> exact absurd rfl hj)

end Confidence

/-! ## Outcome-based confidence: MCPHandlers.calculateConfidence
(src/mcp/handlers.ts, lines 234-247), over the SwarmResult of
src/integration/claude-flow.ts. -/

namespace MCPHandlers

/-- SwarmResult of src/integration/claude-flow.ts. -/
structure SwarmResult where
  success : Bool
  output : String
  exitCode : Int
  duration : Nat
deriving DecidableEq

/-- JavaScript String.prototype.toLowerCase restricted to the characters the
heuristic looks for. -/
def toLowerCase (s : String) : String := s.map Char.toLower

/-- Contiguous-subsequence test on character lists. -/
def infixOf (pat : List Char) : List Char → Bool
  | [] => pat.isEmpty
  | c :: rest => pat.isPrefixOf (c :: rest) || infixOf pat rest

/-- JavaScript String.prototype.includes: substring containment. -/
def includes (s pat : String) : Bool := infixOf pat.toList s.toList

/-- MCPHandlers.calculateConfidence of src/mcp/handlers.ts: 0 on failure,
otherwise 0.5 plus or minus fixed signals from the lowercased output,
clamped to the unit interval. -/
def calculateConfidence (result : SwarmResult) : Rat :=
  if !result.success then 0
  else
    let output := toLowerCase result.output
    let c1 : Rat := 1/2
    let c2 := if includes output "completed" then c1 + 1/5 else c1
    let c3 := if includes output "success" then c2 + 1/5 else c2
    let c4 := if includes output "error" || includes output "failed" then c3 - 3/10 else c3
    max 0 (min 1 c4)

/-- C6: a failed execution scores exactly 0 whatever the output text, and
every outcome scores inside the unit interval. -/
theorem calculateConfidence_failure_and_bounds (r : SwarmResult) :
    (r.success = false → calculateConfidence r = 0)
    ∧ 0 ≤ calculateConfidence r ∧ calculateConfidence r ≤ 1 := by
  refine ⟨fun hf => by simp [calculateConfidence, hf], ?_⟩
  unfold calculateConfidence
  split
  · exact ⟨le_refl 0, by norm_num⟩
  · exact Confidence.clamp01_mem _

/-- Witness for C6: a concrete failed outcome scores 0 even though its output
contains every positive indicator. -/
theorem calculateConfidence_failure_witness :
    calculateConfidence
      { success := false, output := "completed with success", exitCode := 1,
        duration := 3 } = 0 :=
  (calculateConfidence_failure_and_bounds
    { success := false, output := "completed with success", exitCode := 1,
      duration := 3 }).1 rfl

end MCPHandlers

/-! ## Durable repository: src/state/schema.sql, src/types/state.ts and
src/state/repository.ts. The four tables are lists of typed rows; JSON
(de)serialization of the typed metadata/result/state blobs is the identity;
Date values are naturals supplied by the caller. -/

inductive SessionStatus where
  | active
  | completed
  | failed
  | cancelled
deriving DecidableEq

inductive SprintStatus where
  | planning
  | executing
  | completed
  | failed
deriving DecidableEq

inductive ArtifactType where
  | file
  | directory
  | command
  | memory
deriving DecidableEq

/-- The metadata keys the handlers write (handleInit) and read (handleSprint).
A zero field plays the role of an absent key: JavaScript reads the values
through `x || default`, which treats 0 and undefined alike. -/
structure Metadata where
  confidence_threshold : Rat := 0
  max_sprints : Nat := 0
  parallel_swarms : Nat := 0
deriving DecidableEq

structure SessionRow where
  id : String
  taskId : String
  sprintCount : Nat
  confidenceLevel : Rat
  status : SessionStatus
  startedAt : Nat
  updatedAt : Nat
  completedAt : Option Nat
  metadata : Metadata
deriving DecidableEq

structure SprintMetrics where
  duration : Nat
  tokenCount : Nat
  agentCount : Nat
  memoryUsage : Nat
  errorCount : Nat
deriving DecidableEq

structure Artifact where
  id : String
  sprintId : String
  type : ArtifactType
  path : String
  content : Option String
  checksum : Option String
  createdAt : Nat
deriving DecidableEq

structure SprintResult where
  success : Bool
  output : String
  artifacts : List Artifact
  metrics : SprintMetrics
deriving DecidableEq

structure SprintRow where
  id : String
  sessionId : String
  sprintNumber : Nat
  objective : String
  confidence : Rat
  status : SprintStatus
  startedAt : Nat
  completedAt : Option Nat
  result : Option SprintResult
deriving DecidableEq

/-- The opaque external-memory blob stored alongside a checkpoint. -/
abbrev MemoryBlob := List (String × String)

structure CheckpointState where
  session : SessionRow
  sprints : List SprintRow
  artifacts : List Artifact
  memory : MemoryBlob
deriving DecidableEq

structure CheckpointRow where
  id : String
  sessionId : String
  sprintId : String
  name : String
  description : Option String
  state : CheckpointState
  createdAt : Nat
deriving DecidableEq

/-- The SQLite database of src/state/schema.sql. -/
structure DB where
  sessions : List SessionRow
  sprints : List SprintRow
  artifacts : List Artifact
  checkpoints : List CheckpointRow
deriving DecidableEq

namespace SQLiteStateRepository

/-- getSession of src/state/repository.ts: SELECT by primary key. -/
def getSession (db : DB) (id : String) : Option SessionRow :=
  db.sessions.find? (fun s => s.id == id)

/-- The Partial of Session that updateSession inspects field by field. -/
structure SessionUpdates where
  sprintCount : Option Nat := none
  confidenceLevel : Option Rat := none
  status : Option SessionStatus := none
  completedAt : Option Nat := none
  metadata : Option Metadata := none
deriving DecidableEq

def SessionUpdates.isEmpty (u : SessionUpdates) : Bool :=
  u.sprintCount.isNone && u.confidenceLevel.isNone && u.status.isNone
    && u.completedAt.isNone && u.metadata.isNone

/-- One row after the UPDATE plus the schema AFTER UPDATE trigger that
refreshes updated_at. -/
def applySessionUpdates (s : SessionRow) (u : SessionUpdates) (now : Nat) :
    SessionRow :=
  { s with
    sprintCount := u.sprintCount.getD s.sprintCount
    confidenceLevel := u.confidenceLevel.getD s.confidenceLevel
    status := u.status.getD s.status
    completedAt := match u.completedAt with
      | some v => some v
      | none => s.completedAt
    metadata := u.metadata.getD s.metadata
    updatedAt := now }

/-- updateSession of src/state/repository.ts, lines 81-119: builds an UPDATE
from the supplied fields (an empty field list is a SQL syntax error caught as
err), runs it against the rows whose id matches, and then re-reads the row
with getSession - so an absent id yields a successful result carrying no
session (the cast in the source hides the null). -/
def updateSession (db : DB) (id : String) (u : SessionUpdates) (now : Nat) :
    DB × Result (Option SessionRow) String :=
  if u.isEmpty then (db, .err "Failed to update session")
  else
    let db2 : DB := { db with
      sessions := db.sessions.map
        (fun s => if s.id == id then applySessionUpdates s u now else s) }
    (db2, .ok (getSession db2 id))

/-- The COUNT(*) read of createSprint. -/
def countSprints (db : DB) (sessionId : String) : Nat :=
  (db.sprints.filter (fun s => s.sessionId == sessionId)).length

/-- The INSERT statement of createSprint with the constraints of
src/state/schema.sql: session_id is a foreign key (PRAGMA foreign_keys = ON),
id is the primary key, and (session_id, sprint_number) is UNIQUE. -/
def insertSprint (db : DB) (row : SprintRow) : Result DB String :=
  if (getSession db row.sessionId).isNone then
    .err "FOREIGN KEY constraint failed"
  else if (db.sprints.find? (fun s => s.id == row.id)).isSome then
    .err "UNIQUE constraint failed: sprints.id"
  else if (db.sprints.find?
      (fun s => s.sessionId == row.sessionId && s.sprintNumber == row.sprintNumber)).isSome then
    .err "UNIQUE constraint failed: sprints.session_id, sprints.sprint_number"
  else
    .ok { db with sprints := db.sprints ++ [row] }

/-- createSprint of src/state/repository.ts, lines 148-178: read the current
count, then insert count + 1 - two separate statements, no transaction around
them and no retry on conflict. -/
def createSprint (db : DB) (sessionId objective id : String) (now : Nat) :
    DB × Result SprintRow String :=
  let sprintNumber := countSprints db sessionId + 1
  let row : SprintRow :=
    { id := id, sessionId := sessionId, sprintNumber := sprintNumber,
      objective := objective, confidence := 0, status := .planning,
      startedAt := now, completedAt := none, result := none }
  match insertSprint db row with
  | .ok db2 => (db2, .ok row)
  | .err e => (db, .err e)

/-- The Partial of Sprint that updateSprint inspects field by field. -/
structure SprintUpdates where
  confidence : Option Rat := none
  status : Option SprintStatus := none
  completedAt : Option Nat := none
  result : Option SprintResult := none
deriving DecidableEq

def SprintUpdates.isEmpty (u : SprintUpdates) : Bool :=
  u.confidence.isNone && u.status.isNone && u.completedAt.isNone
    && u.result.isNone

def applySprintUpdates (s : SprintRow) (u : SprintUpdates) : SprintRow :=
  { s with
    confidence := u.confidence.getD s.confidence
    status := u.status.getD s.status
    completedAt := match u.completedAt with
      | some v => some v
      | none => s.completedAt
    result := match u.result with
      | some v => some v
      | none => s.result }

/-- updateSprint of src/state/repository.ts, lines 180-230: UPDATE by id, then
re-read the row; reading an absent row throws inside the method and is caught,
so an absent id is an error (sprints carry no updated_at trigger). -/
def updateSprint (db : DB) (id : String) (u : SprintUpdates) :
    DB × Result SprintRow String :=
  if u.isEmpty then (db, .err "Failed to update sprint")
  else
    let db2 : DB := { db with
      sprints := db.sprints.map
        (fun s => if s.id == id then applySprintUpdates s u else s) }
    match db2.sprints.find? (fun s => s.id == id) with
    | none => (db2, .err "Failed to update sprint")
    | some row => (db2, .ok row)

/-- Insertion by ascending sprint number (ORDER BY sprint_number). -/
def insertByNumber (s : SprintRow) : List SprintRow → List SprintRow
  | [] => [s]
  | t :: ts =>
    if s.sprintNumber ≤ t.sprintNumber then s :: t :: ts
    else t :: insertByNumber s ts

/-- getSprintsBySession of src/state/repository.ts: the session sprints
ordered by sprint number. -/
def getSprintsBySession (db : DB) (sessionId : String) : List SprintRow :=
  (db.sprints.filter (fun s => s.sessionId == sessionId)).foldr insertByNumber []

/-- The data of a checkpoint before id and creation time are attached. -/
structure CheckpointInput where
  sessionId : String
  sprintId : String
  name : String
  description : Option String
  state : CheckpointState
deriving DecidableEq

/-- createCheckpoint of src/state/repository.ts, lines 305-330: one INSERT
with both foreign keys enforced and the id primary key. -/
def createCheckpoint (db : DB) (cp : CheckpointInput) (id : String) (now : Nat) :
    Result (DB × CheckpointRow) String :=
  if (getSession db cp.sessionId).isNone then
    .err "FOREIGN KEY constraint failed"
  else if (db.sprints.find? (fun s => s.id == cp.sprintId)).isNone then
    .err "FOREIGN KEY constraint failed"
  else if (db.checkpoints.find? (fun c => c.id == id)).isSome then
    .err "UNIQUE constraint failed: checkpoints.id"
  else
    let row : CheckpointRow :=
      { id := id, sessionId := cp.sessionId, sprintId := cp.sprintId,
        name := cp.name, description := cp.description, state := cp.state,
        createdAt := now }
    .ok ({ db with checkpoints := db.checkpoints ++ [row] }, row)

/-- loadCheckpoint of src/state/repository.ts: SELECT by primary key. -/
def loadCheckpoint (db : DB) (id : String) : Option CheckpointRow :=
  db.checkpoints.find? (fun c => c.id == id)

/-- saveArtifact of src/state/repository.ts: one INSERT with the sprint
foreign key and the id primary key. -/
def saveArtifact (db : DB) (a : Artifact) : DB × Result Artifact String :=
  if (db.sprints.find? (fun s => s.id == a.sprintId)).isNone then
    (db, .err "FOREIGN KEY constraint failed")
  else if (db.artifacts.find? (fun b => b.id == a.id)).isSome then
    (db, .err "UNIQUE constraint failed: artifacts.id")
  else
    ({ db with artifacts := db.artifacts ++ [a] }, .ok a)

end SQLiteStateRepository

/-! ## MCP handlers over the repository: src/mcp/handlers.ts. The external
execution engine (claude-flow) result and all timestamps are parameters. -/

namespace MCPHandlers

open SQLiteStateRepository

/-- The repository database together with the external memory store. -/
structure MCPState where
  db : DB
  memory : List (String × MemoryBlob)
deriving DecidableEq

/-- Modelled from the spec: MemoryIntegration.storeSwarmState forwards to the
external claude-flow memory hook, a collaborator outside this core; spec
section 4.4 treats it as an opaque external-memory map keyed by the session.
Storing upserts the blob under the session key. -/
def storeSwarmState (m : List (String × MemoryBlob)) (sessionId : String)
    (blob : MemoryBlob) : List (String × MemoryBlob) :=
  if (m.find? (fun e => e.1 == sessionId)).isSome then
    m.map (fun e => if e.1 == sessionId then (e.1, blob) else e)
  else
    m ++ [(sessionId, blob)]

/-- Modelled from the spec: MemoryIntegration.getSwarmState retrieves the
blob stored under the session key through the same external hook, reporting
an error when nothing is stored. -/
def getSwarmState (m : List (String × MemoryBlob)) (sessionId : String) :
    Result MemoryBlob String :=
  match m.find? (fun e => e.1 == sessionId) with
  | some e => .ok e.2
  | none => .err "Memory retrieve failed"

/-- The memory blob a checkpoint captures: the stored blob, or the empty
object when retrieval fails. -/
def capturedMemory (m : List (String × MemoryBlob)) (sessionId : String) :
    MemoryBlob :=
  match getSwarmState m sessionId with
  | .ok v => v
  | .err _ => []

structure SprintResponse where
  sprint_id : String
  sprint_number : Nat
  status : String
  confidence : Rat
  duration : Nat
  should_continue : Bool
deriving DecidableEq

structure CheckpointResponse where
  checkpoint_id : String
  message : String
deriving DecidableEq

structure RestoreResponse where
  session_id : String
  message : String
  state : CheckpointState
deriving DecidableEq

structure CancelResponse where
  session_id : String
  message : String
deriving DecidableEq

/-- handleSprint of src/mcp/handlers.ts, lines 154-232. The claude-flow
execution outcome arrives as the swarm parameter; process memory usage and
the clock are parameters as well. An empty session_id is falsy in the
source's required-parameter check, and so is an empty objective. -/
def handleSprint (st : MCPState) (session_id : String) (objective : Option String)
    (sprintId : String) (swarm : Result MCPHandlers.SwarmResult String)
    (memUsage : Nat) (now : Nat) : MCPState × Result SprintResponse String :=
  if session_id == "" then (st, .err "Session ID is required")
  else match getSession st.db session_id with
  | none => (st, .err "Session not found")
  | some session =>
    if session.status ≠ .active then (st, .err "Session is not active")
    else
      let sprintObjective := match objective with
        | some o => if o == "" then
            "Sprint " ++ toString (session.sprintCount + 1) ++ " for " ++ session.taskId
          else o
        | none =>
            "Sprint " ++ toString (session.sprintCount + 1) ++ " for " ++ session.taskId
      match createSprint st.db session_id sprintObjective sprintId now with
      | (_, .err e) => (st, .err e)
      | (db1, .ok sprint) =>
        let db2 := (updateSprint db1 sprint.id { status := some .executing }).1
        match swarm with
        | .err e =>
          let db3 := (updateSprint db2 sprint.id
            { status := some .failed, completedAt := some now }).1
          ({ st with db := db3 }, .err e)
        | .ok value =>
          let confidence := MCPHandlers.calculateConfidence value
          let agents := if session.metadata.parallel_swarms = 0 then 3
            else session.metadata.parallel_swarms
          let metrics : SprintMetrics :=
            { duration := value.duration, tokenCount := 0, agentCount := agents,
              memoryUsage := memUsage, errorCount := 0 }
          let res : SprintResult :=
            { success := value.success, output := value.output,
              artifacts := [], metrics := metrics }
          let db3 := (updateSprint db2 sprint.id
            { status := some .completed, confidence := some confidence,
              completedAt := some now, result := some res }).1
          let db4 := (updateSession db3 session_id
            { sprintCount := some (session.sprintCount + 1),
              confidenceLevel := some confidence } now).1
          let threshold := if session.metadata.confidence_threshold = 0 then 4/5
            else session.metadata.confidence_threshold
          ({ st with db := db4 },
            .ok { sprint_id := sprint.id, sprint_number := sprint.sprintNumber,
                  status := "completed", confidence := confidence,
                  duration := value.duration,
                  should_continue := decide (confidence < threshold) })

/-- handleCheckpoint of src/mcp/handlers.ts, lines 249-295: read the session,
its ordered sprints (the last one is the referenced sprint), the external
memory blob (an empty object on retrieval failure), and persist one
checkpoint row holding all of them; artifacts are stored as the empty list. -/
def handleCheckpoint (st : MCPState) (session_id name : String)
    (description : Option String) (cpId : String) (now : Nat) :
    MCPState × Result CheckpointResponse String :=
  if session_id == "" || name == "" then
    (st, .err "Session ID and name are required")
  else match getSession st.db session_id with
  | none => (st, .err "Session not found")
  | some session =>
    let sprints := getSprintsBySession st.db session_id
    match sprints.getLast? with
    | none => (st, .err "No sprints found in session")
    | some currentSprint =>
      let mem := capturedMemory st.memory session_id
      match createCheckpoint st.db
          { sessionId := session_id, sprintId := currentSprint.id,
            name := name, description := description,
            state := { session := session, sprints := sprints,
                       artifacts := [], memory := mem } } cpId now with
      | .err e => (st, .err e)
      | .ok (db2, row) =>
        ({ st with db := db2 },
          .ok { checkpoint_id := row.id,
                message := "Checkpoint " ++ name ++ " created successfully" })

/-- handleRestore of src/mcp/handlers.ts, lines 297-322: load the checkpoint,
push its memory blob back into the external store, and hand the embedded
state back without touching the session or sprint rows. -/
def handleRestore (st : MCPState) (checkpoint_id : String) :
    MCPState × Result RestoreResponse String :=
  if checkpoint_id == "" then (st, .err "Checkpoint ID is required")
  else match loadCheckpoint st.db checkpoint_id with
  | none => (st, .err "Checkpoint not found")
  | some cp =>
    ({ st with memory := storeSwarmState st.memory cp.sessionId cp.state.memory },
      .ok { session_id := cp.sessionId,
            message := "Restored from checkpoint " ++ cp.name,
            state := cp.state })

/-- handleCancel of src/mcp/handlers.ts, lines 379-397: updateSession to
cancelled with a completion time. The `if (!updateResult)` guard in the source
tests an always-truthy object, so the handler reports success regardless of
the update result. -/
def handleCancel (st : MCPState) (session_id : String) (now : Nat) :
    MCPState × Result CancelResponse String :=
  if session_id == "" then (st, .err "Session ID is required")
  else
    let r := updateSession st.db session_id
      { status := some .cancelled, completedAt := some now } now
    ({ st with db := r.1 },
      .ok { session_id := session_id, message := "Session cancelled successfully" })

/-- The repository mutations a caller can run against the live session
between a checkpoint and its restore. -/
inductive LiveOp where
  | updateSession (id : String) (u : SessionUpdates) (now : Nat)
  | updateSprint (id : String) (u : SprintUpdates)
  | createSprint (sessionId objective id : String) (now : Nat)
  | saveArtifact (a : Artifact)
  | storeMemory (sessionId : String) (blob : MemoryBlob)

def applyLiveOp (st : MCPState) : LiveOp → MCPState
  | .updateSession id u now => { st with db := (updateSession st.db id u now).1 }
  | .updateSprint id u => { st with db := (updateSprint st.db id u).1 }
  | .createSprint sessionId objective id now =>
      { st with db := (createSprint st.db sessionId objective id now).1 }
  | .saveArtifact a => { st with db := (saveArtifact st.db a).1 }
  | .storeMemory sessionId blob =>
      { st with memory := storeSwarmState st.memory sessionId blob }

def applyLiveOps (st : MCPState) (ops : List LiveOp) : MCPState :=
  ops.foldl applyLiveOp st

end MCPHandlers

/-! ## List lemmas shared by the repository proofs -/

theorem find_append_of_none {α : Type} (p : α → Bool) (l l2 : List α)
    (h : ∀ x ∈ l, p x = false) :
    List.find? p (l ++ l2) = List.find? p l2 := by
  induction l with
  | nil => rfl
  | cons a as ih =>
    have ha := h a (List.mem_cons_self a as)
    simp [List.find?, ha, ih (fun x hx => h x (List.mem_cons_of_mem a hx))]

theorem map_ite_id {α : Type} (p : α → Bool) (f : α → α) (l : List α)
    (h : ∀ x ∈ l, p x = false) :
    l.map (fun x => if p x then f x else x) = l := by
  induction l with
  | nil => rfl
  | cons a as ih =>
    have ha := h a (List.mem_cons_self a as)
    simp [ha, ih (fun x hx => h x (List.mem_cons_of_mem a hx))]

theorem find_map_ite {α : Type} (p : α → Bool) (f : α → α) (l : List α) (a : α)
    (hfind : l.find? p = some a) (hpf : ∀ x, p x = true → p (f x) = true) :
    (l.map (fun x => if p x then f x else x)).find? p = some (f a) := by
  induction l with
  | nil => simp [List.find?] at hfind
  | cons b bs ih =>
    by_cases hb : p b = true
    · have hba : b = a := by
        have := hfind
        simp only [List.find?, hb] at this
        exact Option.some.inj this
      subst hba
      simp [List.find?, hb, hpf b hb]
    · have hb2 : p b = false := by
        cases hpb : p b
        · rfl
        · exact absurd hpb hb
      have htail : bs.find? p = some a := by
        have := hfind
        simpa only [List.find?, hb2] using this
      simp [List.find?, hb2, ih htail]

/-! ## Concrete fixtures -/

/-- An active session row. -/
def sess1 : SessionRow :=
  { id := "s1", taskId := "task", sprintCount := 0, confidenceLevel := 0,
    status := .active, startedAt := 0, updatedAt := 0, completedAt := none,
    metadata := {} }

/-- A session row already in the terminal status completed. -/
def sessDone : SessionRow :=
  { sess1 with
    id := "s2", status := .completed, completedAt := some 5, updatedAt := 5 }

/-- A database holding one active and one completed session. -/
def dbTwo : DB :=
  { sessions := [sess1, sessDone], sprints := [], artifacts := [],
    checkpoints := [] }

/-- The database together with an empty external memory store. -/
def stTwo : MCPHandlers.MCPState := { db := dbTwo, memory := [] }

namespace SQLiteStateRepository

/-- The record update of applySessionUpdates keeps the row id. -/
theorem applySessionUpdates_id (s : SessionRow) (u : SessionUpdates) (now : Nat) :
    (applySessionUpdates s u now).id = s.id := rfl

/-- C4 counterexample: the claim says a terminal status is immutable, but the
cancel handler moves the completed session s2 to cancelled and reports
success. -/
theorem handleCancel_mutates_terminal_session :
    sessDone.status = SessionStatus.completed
    ∧ (MCPHandlers.handleCancel stTwo "s2" 9).2 =
        Result.ok { session_id := "s2", message := "Session cancelled successfully" }
    ∧ getSession (MCPHandlers.handleCancel stTwo "s2" 9).1.db "s2" =
        some { sessDone with
               status := .cancelled, completedAt := some 9, updatedAt := 9 } :=
  ⟨rfl, by decide, by decide⟩

/-- C4 (amended): updateSession applies a supplied status unconditionally -
the repository validates no transition, so any current status, terminal ones
included, is overwritten by the supplied one. -/
theorem updateSession_overwrites_status (db : DB) (id : String) (s : SessionRow)
    (u : SessionUpdates) (stat : SessionStatus) (now : Nat)
    (hfind : getSession db id = some s) (hst : u.status = some stat) :
    (updateSession db id u now).2 = Result.ok (some (applySessionUpdates s u now))
    ∧ (applySessionUpdates s u now).status = stat := by
  have hne : u.isEmpty = false := by
    simp [SessionUpdates.isEmpty, hst]
  constructor
  · have hfm := find_map_ite (fun x : SessionRow => x.id == id)
      (fun x => applySessionUpdates x u now) db.sessions s hfind
      (fun x hx => by simpa [applySessionUpdates_id] using hx)
    simp only [updateSession, hne, Bool.false_eq_true, if_false]
    exact congrArg Result.ok hfm
  · simp [applySessionUpdates, hst]

/-- Witness for C4 (amended): the completed session s2 ends up cancelled. -/
theorem updateSession_overwrites_status_witness :
    (updateSession dbTwo "s2"
        { status := some .cancelled, completedAt := some 9 } 9).2 =
      Result.ok (some (applySessionUpdates sessDone
        { status := some .cancelled, completedAt := some 9 } 9))
    ∧ (applySessionUpdates sessDone
        { status := some .cancelled, completedAt := some 9 } 9).status =
      SessionStatus.cancelled :=
  updateSession_overwrites_status dbTwo "s2" sessDone
    { status := some .cancelled, completedAt := some 9 }
    SessionStatus.cancelled 9 (by decide) rfl

/-- C5 counterexample: updating an absent id succeeds with a null payload
instead of failing, and updating an existing session also changes the
updated_at column, which was not among the supplied fields. -/
theorem updateSession_missing_id_and_trigger :
    (updateSession dbTwo "missing" { sprintCount := some 1 } 7).2 = Result.ok none
    ∧ getSession (updateSession dbTwo "s1" { sprintCount := some 1 } 9).1 "s1" =
        some { sess1 with sprintCount := 1, updatedAt := 9 }
    ∧ sess1.updatedAt ≠ 9 :=
  ⟨by decide, by decide, by decide⟩

/-- C5 (amended): with at least one supplied field, updateSession on an absent
id leaves the database unchanged and returns a successful result carrying no
session; on an existing session it returns the row with exactly the supplied
fields overwritten, the identity and start fields kept, and updated_at
refreshed by the schema trigger. -/
theorem updateSession_absent_and_supplied (db : DB) (id : String)
    (u : SessionUpdates) (now : Nat) (hne : u.isEmpty = false) :
    (getSession db id = none → updateSession db id u now = (db, Result.ok none))
    ∧ (∀ s, getSession db id = some s →
        (updateSession db id u now).2 =
          Result.ok (some (applySessionUpdates s u now))
        ∧ applySessionUpdates s u now =
            ⟨s.id, s.taskId, u.sprintCount.getD s.sprintCount,
             u.confidenceLevel.getD s.confidenceLevel, u.status.getD s.status,
             s.startedAt, now,
             (match u.completedAt with | some v => some v | none => s.completedAt),
             u.metadata.getD s.metadata⟩) := by
  constructor
  · intro habs
    have hall : ∀ x ∈ db.sessions, (x.id == id) = false := by
      intro x hx
      have hnx := List.find?_eq_none.mp habs x hx
      cases hpx : (x.id == id)
      · rfl
      · exact absurd hpx hnx
    have hmap := map_ite_id (fun x : SessionRow => x.id == id)
      (fun x => applySessionUpdates x u now) db.sessions hall
    have hstep : updateSession db id u now = (db, Result.ok (getSession db id)) := by
      simp only [updateSession, hne, Bool.false_eq_true, if_false]
      rw [hmap]
    rw [hstep, habs]
  · intro s hs
    constructor
    · have hfm := find_map_ite (fun x : SessionRow => x.id == id)
        (fun x => applySessionUpdates x u now) db.sessions s hs
        (fun x hx => by simpa [applySessionUpdates_id] using hx)
      simp only [updateSession, hne, Bool.false_eq_true, if_false]
      exact congrArg Result.ok hfm
    · rfl

/-- Witness for C5 (amended): updating an absent id leaves the two-session
database unchanged and returns ok with no session. -/
theorem updateSession_absent_and_supplied_witness :
    updateSession dbTwo "missing" { sprintCount := some 1 } 7 =
      (dbTwo, Result.ok none) :=
  (updateSession_absent_and_supplied dbTwo "missing" { sprintCount := some 1 } 7
    (by decide)).1 (by decide)

/-! ## Sprint numbering (C3) -/

/-- The sprint numbers currently stored for a session, in insertion order. -/
def sessionSprintNumbers (db : DB) (sessionId : String) : List Nat :=
  (db.sprints.filter (fun s => s.sessionId == sessionId)).map SprintRow.sprintNumber

/-- A database holding only the active session s1. -/
def dbOne : DB :=
  { sessions := [sess1], sprints := [], artifacts := [], checkpoints := [] }

/-- The row a createSprint call builds after reading count 0. -/
def raceRowA : SprintRow :=
  { id := "spr-a", sessionId := "s1", sprintNumber := countSprints dbOne "s1" + 1,
    objective := "a", confidence := 0, status := .planning, startedAt := 0,
    completedAt := none, result := none }

/-- The row a second, concurrently started createSprint call builds after
reading the same count 0 before the first insert lands. -/
def raceRowB : SprintRow :=
  { raceRowA with
    id := "spr-b", objective := "b" }

/-- C3 counterexample: the COUNT and the INSERT of createSprint are separate
statements with no transaction and no retry, so in the interleaving where
both calls read the count before either inserts, both compute sprint
number 1; the first insert succeeds and the second fails the UNIQUE
constraint, leaving the numbers at [1] instead of [1, 2]. -/
theorem createSprint_race_counterexample :
    countSprints dbOne "s1" + 1 = 1
    ∧ raceRowA.sprintNumber = 1 ∧ raceRowB.sprintNumber = 1
    ∧ insertSprint dbOne raceRowA =
        Result.ok { dbOne with sprints := dbOne.sprints ++ [raceRowA] }
    ∧ insertSprint { dbOne with sprints := dbOne.sprints ++ [raceRowA] } raceRowB =
        Result.err "UNIQUE constraint failed: sprints.session_id, sprints.sprint_number"
    ∧ sessionSprintNumbers { dbOne with sprints := dbOne.sprints ++ [raceRowA] } "s1" = [1] :=
  ⟨rfl, rfl, rfl, by decide, by decide, by decide⟩

/-- One createSprint invocation: the fresh id, the objective and the clock. -/
structure SprintCall where
  id : String
  objective : String
  now : Nat

/-- A sequence of createSprint calls executed one after the other (the
single-writer event loop runs each COUNT-then-INSERT pair to completion). -/
def runCreateSprints (db : DB) (sessionId : String) (calls : List SprintCall) : DB :=
  calls.foldl (fun d c => (createSprint d sessionId c.objective c.id c.now).1) db

/-- The row createSprint inserts when the count read returned n - 1. -/
def newSprintRow (sid : String) (c : SprintCall) (n : Nat) : SprintRow :=
  { id := c.id, sessionId := sid, sprintNumber := n, objective := c.objective,
    confidence := 0, status := .planning, startedAt := c.now,
    completedAt := none, result := none }

theorem range1_concat (k : Nat) :
    List.range' 1 (k + 1) = List.range' 1 k ++ [k + 1] := by
  rw [List.range'_concat]
  simp [Nat.add_comm]

theorem not_mem_range1_succ (k : Nat) : k + 1 ∉ List.range' 1 k := by
  intro h
  have := (List.mem_range'_1.mp h).2
  omega

/-- A successful createSprint call appends exactly the row numbered one past
the current count. -/
theorem createSprint_step (db : DB) (sid : String) (c : SprintCall) (k : Nat)
    (hs : (getSession db sid).isSome = true)
    (hpk : db.sprints.find? (fun s => s.id == c.id) = none)
    (hcount : countSprints db sid = k)
    (huniq : db.sprints.find?
      (fun s => s.sessionId == sid && s.sprintNumber == (k + 1)) = none) :
    createSprint db sid c.objective c.id c.now =
      ({ db with sprints := db.sprints ++ [newSprintRow sid c (k + 1)] },
        Result.ok (newSprintRow sid c (k + 1))) := by
  have h1 : (getSession db sid).isNone = false := by
    rcases hgo : getSession db sid with _ | v
    · rw [hgo] at hs
      simp at hs
    · rfl
  simp only [createSprint, hcount, insertSprint, newSprintRow, h1, hpk, huniq,
    Option.isSome_none, Option.isNone_none, Bool.false_eq_true, if_false]

/-- Helper induction for C3: starting from numbers 1..k, a serialized batch
of fresh-id calls extends them to 1..(k + batch length). -/
theorem createSprint_sequential_aux (sid : String) (calls : List SprintCall) :
    ∀ (db : DB) (k : Nat),
      (getSession db sid).isSome = true →
      (∀ c ∈ calls, ∀ s ∈ db.sprints, s.id ≠ c.id) →
      (calls.map SprintCall.id).Nodup →
      sessionSprintNumbers db sid = List.range' 1 k →
      sessionSprintNumbers (runCreateSprints db sid calls) sid =
        List.range' 1 (k + calls.length) := by
  induction calls with
  | nil =>
    intro db k hs _ _ hinv
    simpa [runCreateSprints] using hinv
  | cons c rest ih =>
    intro db k hs hfresh hnodup hinv
    have hcount : countSprints db sid = k := by
      have hlen : (sessionSprintNumbers db sid).length = (List.range' 1 k).length := by
        rw [hinv]
      simpa [sessionSprintNumbers, countSprints, List.length_range'] using hlen
    have hpk : db.sprints.find? (fun s => s.id == c.id) = none := by
      apply List.find?_eq_none.mpr
      intro x hx
      have := hfresh c (List.mem_cons_self c rest) x hx
      simpa using this
    have huniq : db.sprints.find?
        (fun s => s.sessionId == sid && s.sprintNumber == (k + 1)) = none := by
      apply List.find?_eq_none.mpr
      intro x hx hP
      simp only [Bool.and_eq_true, beq_iff_eq] at hP
      obtain ⟨hxs, hxn⟩ := hP
      have hmem : x.sprintNumber ∈ sessionSprintNumbers db sid := by
        simp only [sessionSprintNumbers]
        exact List.mem_map_of_mem _ (List.mem_filter.mpr ⟨hx, by simp [hxs]⟩)
      rw [hinv, hxn] at hmem
      exact not_mem_range1_succ k hmem
    have hstep := createSprint_step db sid c k hs hpk hcount huniq
    have hrun : runCreateSprints db sid (c :: rest) =
        runCreateSprints
          { db with sprints := db.sprints ++ [newSprintRow sid c (k + 1)] }
          sid rest := by
      simp only [runCreateSprints, List.foldl_cons, hstep]
    rw [hrun]
    have hfresh2 : ∀ c2 ∈ rest,
        ∀ s ∈ ({ db with sprints := db.sprints ++ [newSprintRow sid c (k + 1)] } : DB).sprints,
        s.id ≠ c2.id := by
      intro c2 hc2 s hsmem
      rcases List.mem_append.mp hsmem with hold | hnew
      · exact hfresh c2 (List.mem_cons_of_mem c hc2) s hold
      · have hseq : s = newSprintRow sid c (k + 1) := by simpa using hnew
        rw [hseq]
        have hnot : c.id ∉ rest.map SprintCall.id := (List.nodup_cons.mp hnodup).1
        intro heq
        have heq2 : c.id = c2.id := heq
        refine hnot ?_
        rw [heq2]
        exact List.mem_map_of_mem SprintCall.id hc2
    have hnodup2 : (rest.map SprintCall.id).Nodup := (List.nodup_cons.mp hnodup).2
    have hinv2 : sessionSprintNumbers
        { db with sprints := db.sprints ++ [newSprintRow sid c (k + 1)] } sid =
        List.range' 1 (k + 1) := by
      have hold : (db.sprints.filter (fun s => s.sessionId == sid)).map
          SprintRow.sprintNumber = List.range' 1 k := hinv
      simp only [sessionSprintNumbers, List.filter_append, List.map_append, hold]
      simp [newSprintRow, range1_concat]
    have hrec := ih { db with sprints := db.sprints ++ [newSprintRow sid c (k + 1)] }
      (k + 1) hs hfresh2 hnodup2 hinv2
    have harith : k + (c :: rest).length = (k + 1) + rest.length := by
      simp only [List.length_cons]
      omega
    rw [harith]
    exact hrec

/-- C3 (amended): createSprint computes the next number as count + 1 with the
COUNT and the INSERT as two separate statements - there is no enclosing
transaction and no retry. When the N calls run serialized (as the
single-writer process executes them), the session ends with sprint numbers
exactly 1..N, no duplicates and no gaps; if two calls interleave between the
COUNT and the INSERT, the UNIQUE(session_id, sprint_number) constraint makes
the later insert fail instead of renumbering. -/
theorem createSprint_sequential_numbers (db : DB) (sid : String)
    (calls : List SprintCall)
    (hs : (getSession db sid).isSome = true)
    (hfresh : ∀ c ∈ calls, ∀ s ∈ db.sprints, s.id ≠ c.id)
    (hnodup : (calls.map SprintCall.id).Nodup)
    (hstart : sessionSprintNumbers db sid = []) :
    sessionSprintNumbers (runCreateSprints db sid calls) sid =
      List.range' 1 calls.length := by
  have h0 : sessionSprintNumbers db sid = List.range' 1 0 := by simpa using hstart
  simpa using createSprint_sequential_aux sid calls db 0 hs hfresh hnodup h0

/-- Witness for C3 (amended): two serialized calls on the fresh session yield
sprint numbers 1 and 2. -/
theorem createSprint_sequential_numbers_witness :
    sessionSprintNumbers
      (runCreateSprints dbOne "s1"
        [{ id := "w1", objective := "o1", now := 1 },
         { id := "w2", objective := "o2", now := 2 }]) "s1" =
      List.range' 1 2 :=
  createSprint_sequential_numbers dbOne "s1"
    [{ id := "w1", objective := "o1", now := 1 },
     { id := "w2", objective := "o2", now := 2 }]
    (by decide) (by decide) (by decide) (by decide)

/-- The record update of applySprintUpdates keeps the row id. -/
theorem applySprintUpdates_id (s : SprintRow) (u : SprintUpdates) :
    (applySprintUpdates s u).id = s.id := rfl

/-- updateSprint on a freshly appended row rewrites exactly that row. -/
theorem updateSprint_append_fresh (db : DB) (sprints0 : List SprintRow)
    (r : SprintRow) (id : String) (u : SprintUpdates)
    (hne : u.isEmpty = false)
    (hfresh : ∀ x ∈ sprints0, (x.id == id) = false)
    (hrid : (r.id == id) = true) :
    updateSprint { db with sprints := sprints0 ++ [r] } id u =
      ({ db with sprints := sprints0 ++ [applySprintUpdates r u] },
       Result.ok (applySprintUpdates r u)) := by
  simp only [updateSprint, hne, Bool.false_eq_true, if_false]
  have hmap : (sprints0 ++ [r]).map
      (fun s => if s.id == id then applySprintUpdates s u else s) =
      sprints0 ++ [applySprintUpdates r u] := by
    rw [List.map_append, map_ite_id _ _ _ hfresh, List.map_cons, List.map_nil,
      hrid]
    simp
  rw [hmap]
  have hfind : (sprints0 ++ [applySprintUpdates r u]).find?
      (fun s => s.id == id) = some (applySprintUpdates r u) := by
    rw [find_append_of_none _ _ _ hfresh]
    have : ((applySprintUpdates r u).id == id) = true := by
      rw [applySprintUpdates_id]
      exact hrid
    simp [List.find?, this]
  rw [hfind]

end SQLiteStateRepository

namespace MCPHandlers

open SQLiteStateRepository

/-- C9: when the external execution of a sprint fails, handleSprint marks the
just-created sprint failed with a completion timestamp, returns the execution
error, and leaves the session rows - in particular sprintCount and
confidenceLevel - untouched: the session row is only updated on success. -/
theorem handleSprint_failure (st : MCPState) (sid obj sprintId e : String)
    (mu now : Nat) (sess : SessionRow)
    (hsid : sid ≠ "")
    (hobj : obj ≠ "")
    (hsess : getSession st.db sid = some sess)
    (hactive : sess.status = SessionStatus.active)
    (hfresh : ∀ s ∈ st.db.sprints, (s.id == sprintId) = false)
    (hnum : st.db.sprints.find?
      (fun s => s.sessionId == sid && s.sprintNumber == (countSprints st.db sid + 1)) =
      none) :
    (handleSprint st sid (some obj) sprintId (Result.err e) mu now).2 = Result.err e
    ∧ (handleSprint st sid (some obj) sprintId (Result.err e) mu now).1.db.sessions
        = st.db.sessions
    ∧ (handleSprint st sid (some obj) sprintId (Result.err e) mu now).1.db.sprints.find?
        (fun s => s.id == sprintId) =
      some { id := sprintId, sessionId := sid,
             sprintNumber := countSprints st.db sid + 1, objective := obj,
             confidence := 0, status := .failed, startedAt := now,
             completedAt := some now, result := none } := by
  have hsidb : (sid == "") = false := by
    cases hb : sid == ""
    · rfl
    · exact absurd (eq_of_beq hb) hsid
  have hobjb : (obj == "") = false := by
    cases hb : obj == ""
    · rfl
    · exact absurd (eq_of_beq hb) hobj
  have hs : (getSession st.db sid).isSome = true := by rw [hsess]; rfl
  have hpk : st.db.sprints.find? (fun s => s.id == sprintId) = none :=
    List.find?_eq_none.mpr (fun x hx => by simp [hfresh x hx])
  have hstep : createSprint st.db sid obj sprintId now =
      ({ st.db with sprints := st.db.sprints ++
          [newSprintRow sid { id := sprintId, objective := obj, now := now }
            (countSprints st.db sid + 1)] },
        Result.ok (newSprintRow sid { id := sprintId, objective := obj, now := now }
          (countSprints st.db sid + 1))) :=
    createSprint_step st.db sid { id := sprintId, objective := obj, now := now }
      (countSprints st.db sid) hs hpk rfl hnum
  have hu1 := updateSprint_append_fresh st.db st.db.sprints
    (newSprintRow sid { id := sprintId, objective := obj, now := now }
      (countSprints st.db sid + 1))
    sprintId { status := some .executing } rfl hfresh (by simp [newSprintRow])
  have hu2 := updateSprint_append_fresh st.db st.db.sprints
    (applySprintUpdates
      (newSprintRow sid { id := sprintId, objective := obj, now := now }
        (countSprints st.db sid + 1))
      { status := some .executing })
    sprintId { status := some .failed, completedAt := some now } rfl hfresh
    (by simp [newSprintRow, applySprintUpdates])
  have key : handleSprint st sid (some obj) sprintId (Result.err e) mu now =
      ({ st with db := { st.db with sprints := st.db.sprints ++
          [{ id := sprintId, sessionId := sid,
             sprintNumber := countSprints st.db sid + 1, objective := obj,
             confidence := 0, status := .failed, startedAt := now,
             completedAt := some now, result := none }] } },
        Result.err e) := by
    simp only [newSprintRow] at hstep hu1 hu2
    simp only [handleSprint, hsidb, Bool.false_eq_true, if_false, hsess, hactive,
      ne_eq, not_true_eq_false, hobjb, hstep, hu1, hu2]
    simp [applySprintUpdates]
  refine ⟨by rw [key], by rw [key], ?_⟩
  rw [key]
  have hfind := find_append_of_none (fun s : SprintRow => s.id == sprintId)
    st.db.sprints
    [{ id := sprintId, sessionId := sid,
       sprintNumber := countSprints st.db sid + 1, objective := obj,
       confidence := 0, status := .failed, startedAt := now,
       completedAt := some now, result := none }] hfresh
  rw [hfind, List.find?_cons]
  simp

/-- Witness for C9: a concrete failed execution on the active session s1
returns the error, stores the sprint as failed at time 4, and leaves the
session rows as they were. -/
theorem handleSprint_failure_witness :
    (handleSprint stTwo "s1" (some "obj") "spr-w" (Result.err "boom") 0 4).2 =
      Result.err "boom"
    ∧ (handleSprint stTwo "s1" (some "obj") "spr-w" (Result.err "boom") 0 4).1.db.sessions
        = stTwo.db.sessions
    ∧ (handleSprint stTwo "s1" (some "obj") "spr-w" (Result.err "boom") 0 4).1.db.sprints.find?
        (fun s => s.id == "spr-w") =
      some { id := "spr-w", sessionId := "s1",
             sprintNumber := countSprints stTwo.db "s1" + 1, objective := "obj",
             confidence := 0, status := .failed, startedAt := 4,
             completedAt := some 4, result := none } :=
  handleSprint_failure stTwo "s1" "obj" "spr-w" "boom" 0 4 sess1
    (by decide) (by decide) (by decide) rfl
    (by intro s hs; simp [stTwo, dbTwo] at hs) (by decide)

end MCPHandlers

namespace SQLiteStateRepository

/-- updateSession never touches the checkpoints table. -/
theorem updateSession_fst_checkpoints (db : DB) (id : String) (u : SessionUpdates)
    (now : Nat) : ((updateSession db id u now).1).checkpoints = db.checkpoints := by
  unfold updateSession
  split <;> rfl

/-- updateSprint never touches the checkpoints table. -/
theorem updateSprint_fst_checkpoints (db : DB) (id : String) (u : SprintUpdates) :
    ((updateSprint db id u).1).checkpoints = db.checkpoints := by
  unfold updateSprint
  split
  · rfl
  · dsimp only
    split <;> rfl

/-- A successful sprint insert only appends to the sprints table. -/
theorem insertSprint_ok_checkpoints (db : DB) (row : SprintRow) (db2 : DB)
    (h : insertSprint db row = Result.ok db2) :
    db2.checkpoints = db.checkpoints := by
  unfold insertSprint at h
  split at h
  · exact Result.noConfusion h
  · split at h
    · exact Result.noConfusion h
    · split at h
      · exact Result.noConfusion h
      · cases h
        rfl

/-- createSprint never touches the checkpoints table. -/
theorem createSprint_fst_checkpoints (db : DB) (sid obj id : String) (now : Nat) :
    ((createSprint db sid obj id now).1).checkpoints = db.checkpoints := by
  unfold createSprint
  dsimp only
  split
  · rename_i db2 heq
    exact insertSprint_ok_checkpoints db _ db2 heq
  · rfl

/-- saveArtifact never touches the checkpoints table. -/
theorem saveArtifact_fst_checkpoints (db : DB) (a : Artifact) :
    ((saveArtifact db a).1).checkpoints = db.checkpoints := by
  unfold saveArtifact
  split
  · rfl
  · split <;> rfl

/-- A successful createCheckpoint appends exactly one row carrying the
requested id, session, name and state, and the id was fresh. -/
theorem createCheckpoint_ok (db : DB) (cp : CheckpointInput) (id : String)
    (now : Nat) (db2 : DB) (row : CheckpointRow)
    (h : createCheckpoint db cp id now = Result.ok (db2, row)) :
    db2.checkpoints = db.checkpoints ++ [row]
    ∧ row.id = id ∧ row.sessionId = cp.sessionId ∧ row.name = cp.name
    ∧ row.state = cp.state
    ∧ db.checkpoints.find? (fun c => c.id == id) = none := by
  unfold createCheckpoint at h
  split at h
  · exact Result.noConfusion h
  · split at h
    · exact Result.noConfusion h
    · split at h
      · exact Result.noConfusion h
      · rename_i hno
        cases h
        refine ⟨rfl, rfl, rfl, rfl, rfl, ?_⟩
        cases hf : db.checkpoints.find? (fun c => c.id == id)
        · rfl
        · rw [hf] at hno
          simp at hno

end SQLiteStateRepository

namespace MCPHandlers

open SQLiteStateRepository

/-- A single live mutation keeps the checkpoints table intact. -/
theorem applyLiveOp_checkpoints (st : MCPState) (op : LiveOp) :
    (applyLiveOp st op).db.checkpoints = st.db.checkpoints := by
  cases op with
  | updateSession id u now => exact updateSession_fst_checkpoints st.db id u now
  | updateSprint id u => exact updateSprint_fst_checkpoints st.db id u
  | createSprint sessionId objective id now =>
      exact createSprint_fst_checkpoints st.db sessionId objective id now
  | saveArtifact a => exact saveArtifact_fst_checkpoints st.db a
  | storeMemory sessionId blob => rfl

/-- Live mutations between checkpoint and restore keep the checkpoints table
intact. -/
theorem applyLiveOps_checkpoints (ops : List LiveOp) :
    ∀ st : MCPState, (applyLiveOps st ops).db.checkpoints = st.db.checkpoints := by
  induction ops with
  | nil => intro st; rfl
  | cons op rest ih =>
    intro st
    have hstep : applyLiveOps st (op :: rest) = applyLiveOps (applyLiveOp st op) rest := rfl
    rw [hstep, ih (applyLiveOp st op), applyLiveOp_checkpoints]

/-- C2: restoring the checkpoint written by a successful checkpoint call
returns exactly the session, the ordered sprint list, the (empty) artifact
list and the external-memory blob captured at checkpoint time, whatever live
mutations ran on the session, its sprints or the memory store in between. -/
theorem checkpoint_restore_roundtrip (st : MCPState) (sid name : String)
    (descr : Option String) (cpId : String) (now : Nat) (ops : List LiveOp)
    (resp : CheckpointResponse) (sess : SessionRow)
    (hcpid : cpId ≠ "")
    (hsess : getSession st.db sid = some sess)
    (h : (handleCheckpoint st sid name descr cpId now).2 = Result.ok resp) :
    (handleRestore
        (applyLiveOps (handleCheckpoint st sid name descr cpId now).1 ops)
        resp.checkpoint_id).2 =
      Result.ok { session_id := sid,
                  message := "Restored from checkpoint " ++ name,
                  state := { session := sess,
                             sprints := getSprintsBySession st.db sid,
                             artifacts := [],
                             memory := capturedMemory st.memory sid } } := by
  cases hguard : (sid == "" || name == "") with
  | true =>
    simp only [handleCheckpoint, hguard] at h
    simp at h
  | false =>
    simp only [handleCheckpoint, hguard, Bool.false_eq_true, if_false, hsess] at h
    rcases hlast : (getSprintsBySession st.db sid).getLast? with _ | cur
    · rw [hlast] at h
      simp at h
    · rw [hlast] at h
      have h4 : (match createCheckpoint st.db
            { sessionId := sid, sprintId := cur.id, name := name,
              description := descr,
              state := { session := sess,
                         sprints := getSprintsBySession st.db sid,
                         artifacts := [],
                         memory := capturedMemory st.memory sid } }
            cpId now with
          | Result.err e => (st, Result.err e)
          | Result.ok (db2, row) =>
            ({ st with db := db2 },
              Result.ok ({ checkpoint_id := row.id,
                           message := "Checkpoint " ++ name ++ " created successfully" } :
                CheckpointResponse))).2
          = Result.ok resp := h
      rcases hcc : createCheckpoint st.db
          { sessionId := sid, sprintId := cur.id, name := name,
            description := descr,
            state := { session := sess, sprints := getSprintsBySession st.db sid,
                       artifacts := [], memory := capturedMemory st.memory sid } }
          cpId now with pr | e
      · obtain ⟨db2, row⟩ := pr
        rw [hcc] at h4
        have h2 : (Result.ok { checkpoint_id := row.id,
                               message := "Checkpoint " ++ name ++ " created successfully" } :
            Result CheckpointResponse String) = Result.ok resp := h4
        have hresp : resp = { checkpoint_id := row.id,
                              message := "Checkpoint " ++ name ++ " created successfully" } :=
          (Result.ok.inj h2).symm
        obtain ⟨hdb2, hrowid, hrowsid, hrowname, hrowstate, hfindnone⟩ :=
          createCheckpoint_ok _ _ _ _ _ _ hcc
        have hfst : (handleCheckpoint st sid name descr cpId now).1 =
            { st with db := db2 } := by
          simp only [handleCheckpoint, hguard, Bool.false_eq_true, if_false,
            hsess, hlast, hcc]
        rw [hfst, hresp]
        have hcps : (applyLiveOps { st with db := db2 } ops).db.checkpoints =
            st.db.checkpoints ++ [row] := by
          rw [applyLiveOps_checkpoints ops { st with db := db2 }]
          exact hdb2
        have hrid : (row.id == "") = false := by
          rw [hrowid]
          cases hb : cpId == ""
          · rfl
          · exact absurd (eq_of_beq hb) hcpid
        simp only [handleRestore, hrid, Bool.false_eq_true, if_false]
        have hload : loadCheckpoint
            (applyLiveOps { st with db := db2 } ops).db row.id = some row := by
          unfold loadCheckpoint
          rw [hcps]
          rw [find_append_of_none _ _ _ ?_]
          · rw [List.find?_cons]
            simp
          · intro c hcmem
            rw [hrowid]
            have hnc := List.find?_eq_none.mp hfindnone c hcmem
            cases hcb : (c.id == cpId)
            · rfl
            · exact absurd hcb hnc
        rw [hload]
        show (Result.ok ({ session_id := row.sessionId,
                           message := "Restored from checkpoint " ++ row.name,
                           state := row.state } : RestoreResponse) :
            Result RestoreResponse String) = _
        rw [hrowsid, hrowname, hrowstate]
      · rw [hcc] at h4
        simp at h4

/-- A completed sprint of session s1. -/
def sprW : SprintRow :=
  { id := "sp1", sessionId := "s1", sprintNumber := 1, objective := "o",
    confidence := 0, status := .completed, startedAt := 1, completedAt := some 2,
    result := none }

/-- A database holding session s1 with one sprint. -/
def dbCk : DB :=
  { sessions := [sess1], sprints := [sprW], artifacts := [], checkpoints := [] }

/-- The checkpoint fixture state: one session, one sprint, one memory blob. -/
def stCk : MCPState :=
  { db := dbCk, memory := [("s1", [("k", "v")])] }

/-- Witness for C2: a concrete checkpoint of s1 restores the captured state
even after a live updateSession runs in between. -/
theorem checkpoint_restore_roundtrip_witness :
    (handleRestore
        (applyLiveOps (handleCheckpoint stCk "s1" "save" none "cp1" 5).1
          [LiveOp.updateSession "s1" { confidenceLevel := some (1/2) } 7])
        "cp1").2 =
      Result.ok { session_id := "s1",
                  message := "Restored from checkpoint " ++ "save",
                  state := { session := sess1,
                             sprints := getSprintsBySession stCk.db "s1",
                             artifacts := [],
                             memory := capturedMemory stCk.memory "s1" } } :=
  checkpoint_restore_roundtrip stCk "s1" "save" none "cp1" 5
    [LiveOp.updateSession "s1" { confidenceLevel := some (1/2) } 7]
    { checkpoint_id := "cp1",
      message := "Checkpoint " ++ "save" ++ " created successfully" }
    sess1 (by decide) (by decide) (by decide)

end MCPHandlers

end SwarmConductor
